import Mathlib

/-!
Shallow embedding of the NodeComposer backend job-scheduling layer
(`backend/musicgen_service.py`, `backend/training_service.py`,
`backend/batch_generator.py`, `backend/config_manager.py`,
`backend/models.py`, and the relevant endpoints of `backend/main.py`),
together with theorems settling the spec claims about it.

Conventions of the embedding:
* Python floats are modelled as `Rat` (all values occurring in this layer are
  exact decimal literals such as 0.1, 0.3, 0.8, 1.0, 30.0).
* `uuid.uuid4()` is modelled as a fresh-id counter (`next_id`) for generation
  tasks, and as an explicit parameter where a single id is drawn.
* Wall-clock values (`func.now()`, `datetime.now().strftime(...)`) are explicit
  parameters.
* The SQLAlchemy session is modelled as a list of records; `query(...).first()`
  is first-match lookup, a mutate-and-commit is first-match in-place update.
* The external generation calls that can raise (`set_generation_params`,
  `generate` / `generate_with_chroma` together with `audio_read`,
  `audio_write`) are driven by a failure oracle saying which of those calls,
  if any, raises.
* The cooperative stop flag read inside the training epoch loop is driven by
  an oracle `stopAt` giving the first loop checkpoint at which the flag reads
  true (the flag is only ever set, never cleared, during a run).
-/

namespace NodeComposer

/-- Status enum of `GenerationTask.status` (`models.py`):
queued, processing, completed, failed. -/
inductive TaskStatus where
  | queued
  | processing
  | completed
  | failed
  deriving DecidableEq, Repr

/-- Record `GenerationTask` (`models.py`, lines 11-22).  `created_at` has a
server default of now(); `completed_at` is a nullable column with no default
and, as the theorems below show, is never written by the service code. -/
structure GenerationTask where
  id : Nat
  prompt : String
  status : TaskStatus
  progress : Rat
  duration : Rat
  file_path : Option String
  model_id : Option String
  created_at : Nat
  completed_at : Option Nat
  deriving DecidableEq, Repr

/-- Record `ModelCheckpoint` (`models.py`, lines 25-33). -/
structure ModelCheckpoint where
  id : Nat
  name : String
  description : String
  file_path : String
  is_base : Bool
  deriving DecidableEq, Repr

/-- The job descriptor dict put on `self.generation_queue`
(`musicgen_service.py`, lines 69-77). -/
structure JobDescriptor where
  task_id : Nat
  prompt : String
  duration : Rat
  model_id : Option String
  guidance_scale : Rat
  temperature : Rat
  audio_conditioning : Option String
  deriving DecidableEq, Repr

/-- State of `MusicGenService`: the persisted task store (the DB table
`generation_tasks`), the in-memory FIFO `generation_queue` (head = oldest),
the fresh-id source modelling `uuid.uuid4()`, and the `is_processing` flag. -/
structure MGState where
  db : List GenerationTask
  queue : List JobDescriptor
  next_id : Nat
  is_processing : Bool
  deriving DecidableEq, Repr

/-- Initial service state: empty store, empty queue. -/
def mgInit : MGState :=
  { db := [], queue := [], next_id := 0, is_processing := false }

/-- Lookup `db.query(GenerationTask).filter(GenerationTask.id == i).first()`:
first record with the given id, if any. -/
def dbFind : List GenerationTask → Nat → Option GenerationTask
  | [], _ => none
  | u :: rest, i => if u.id = i then some u else dbFind rest i

/-- Mutating the record found by `.first()` and committing: replace the first
record with the given task's id. -/
def dbUpdate : List GenerationTask → GenerationTask → List GenerationTask
  | [], _ => []
  | u :: rest, t => if u.id = t.id then t :: rest else u :: dbUpdate rest t

/-- Embedding of `MusicGenService.queue_generation` (`musicgen_service.py`, lines 45-79):
creates a `GenerationTask` with status `queued`, commits it, puts a job
descriptor on the FIFO queue and returns the task.  The source performs no
validation of `prompt` or `duration`. -/
def queue_generation (s : MGState) (prompt : String) (duration : Rat)
    (model_id : Option String) (guidance_scale temperature : Rat)
    (audio_conditioning : Option String) (now : Nat) :
    GenerationTask × MGState :=
  let task : GenerationTask :=
    { id := s.next_id
      prompt := prompt
      status := .queued
      progress := 0
      duration := duration
      file_path := none
      model_id := model_id
      created_at := now
      completed_at := none }
  let desc : JobDescriptor :=
    { task_id := task.id
      prompt := prompt
      duration := duration
      model_id := model_id
      guidance_scale := guidance_scale
      temperature := temperature
      audio_conditioning := audio_conditioning }
  (task,
    { s with
        db := s.db ++ [task]
        queue := s.queue ++ [desc]
        next_id := s.next_id + 1 })

/-- The calls inside the `try` block of `_process_generation` that can raise:
`set_generation_params`, the generation call itself (including `audio_read`
of the conditioning audio), and `audio_write`. -/
inductive FailPoint where
  | setParams
  | generate
  | writeAudio
  deriving DecidableEq, Repr

/-- One committed row state of a task as observed by a poller: the fields
`_process_generation` writes before each `db.commit()`. -/
structure Snapshot where
  status : TaskStatus
  progress : Rat
  file_path : Option String
  deriving DecidableEq, Repr

/-- The snapshot of a task's mutable fields at a commit point. -/
def snap (t : GenerationTask) : Snapshot :=
  { status := t.status, progress := t.progress, file_path := t.file_path }

/-- Embedding of `MusicGenService._process_generation` (`musicgen_service.py`, lines
98-171), given the task record found in the DB and the failure oracle.
Returns the final task record together with the list of committed snapshots,
in commit order.  On any exception the `except` branch sets status `failed`
and progress 0.0 and commits. -/
def process_generation (t : GenerationTask) (oracle : Option FailPoint) :
    GenerationTask × List Snapshot :=
  let t1 := { t with status := TaskStatus.processing, progress := 0.1 }
  if oracle = some FailPoint.setParams then
    let tf := { t1 with status := TaskStatus.failed, progress := 0.0 }
    (tf, [snap t1, snap tf])
  else
    let t2 := { t1 with progress := 0.3 }
    if oracle = some FailPoint.generate then
      let tf := { t2 with status := TaskStatus.failed, progress := 0.0 }
      (tf, [snap t1, snap t2, snap tf])
    else
      let t3 := { t2 with progress := 0.8 }
      if oracle = some FailPoint.writeAudio then
        let tf := { t3 with status := TaskStatus.failed, progress := 0.0 }
        (tf, [snap t1, snap t2, snap t3, snap tf])
      else
        let t4 := { t3 with
          file_path := some ("generations/generation_" ++ toString t.id ++ ".wav")
          status := TaskStatus.completed
          progress := 1.0 }
        (t4, [snap t1, snap t2, snap t3, snap t4])

/-- One iteration of the worker loop body (`musicgen_service.py`, lines
83-93): if the queue is non-empty, get the oldest descriptor and run
`_process_generation` on it.  If the task record is not found the function
returns early (the descriptor is still consumed). -/
def worker_step (s : MGState) (oracle : Option FailPoint) : MGState :=
  match s.queue with
  | [] => s
  | d :: rest =>
    match dbFind s.db d.task_id with
    | none => { s with queue := rest, is_processing := false }
    | some t =>
      let t' := (process_generation t oracle).1
      { s with queue := rest, db := dbUpdate s.db t', is_processing := false }

/-- Running the worker for a list of iterations, one oracle per iteration. -/
def run_worker (s : MGState) (oracles : List (Option FailPoint)) : MGState :=
  oracles.foldl worker_step s

/-! ### Generation configuration (`config_manager.py`, lines 10-16) -/

/-- Defaults of `GenerationConfig` (`config_manager.py`): the configured
duration bounds referenced by the spec. -/
structure GenerationConfig where
  default_duration : Rat
  default_guidance_scale : Rat
  default_temperature : Rat
  max_duration : Rat
  min_duration : Rat
  deriving DecidableEq, Repr

/-- Default generation configuration values. -/
def generationConfigDefault : GenerationConfig :=
  { default_duration := 30.0
    default_guidance_scale := 3.0
    default_temperature := 1.0
    max_duration := 120.0
    min_duration := 10.0 }

/-! ### Training service (`training_service.py`) -/

/-- Status strings of the training status record
(`training_service.py`, line 18): idle, processing_dataset, training,
completed, failed. -/
inductive TStatus where
  | idle
  | processing_dataset
  | training
  | completed
  | failed
  deriving DecidableEq, Repr

/-- The singleton `training_status` dict (`training_service.py`,
lines 17-24). -/
structure TrainingStatus where
  status : TStatus
  progress : Rat
  epoch : Nat
  total_epochs : Nat
  loss : Option Rat
  message : String
  deriving DecidableEq, Repr

/-- Mutable state of `TrainingService`: the `is_training` flag, the status
record and the cooperative `should_stop` flag. -/
structure TSState where
  is_training : Bool
  training_status : TrainingStatus
  should_stop : Bool
  deriving DecidableEq, Repr

/-- State after `TrainingService.__init__` (`training_service.py`,
lines 15-25). -/
def tsInit : TSState :=
  { is_training := false
    training_status :=
      { status := .idle, progress := 0, epoch := 0, total_epochs := 0
        loss := none, message := "" }
    should_stop := false }

/-- Embedding of `pathlib.Path(p).stem`: final path component without its last suffix. -/
def pathStem (p : String) : String :=
  let name := (p.splitOn "/").getLastD ""
  let parts := name.splitOn "."
  match parts with
  | [] => name
  | [_] => name
  | first :: rest =>
    if first = "" ∧ rest.length = 1 then name
    else String.intercalate "." parts.dropLast

/-- Embedding of `TrainingService._generate_caption` (`training_service.py`,
lines 82-86): placeholder caption from the file stem. -/
def generate_caption (audio_path : String) : String :=
  "Music track from " ++ pathStem audio_path

/-- Embedding of `TrainingService._slice_audio` (`training_service.py`, lines 76-80):
placeholder that returns the original file path as the single chunk. -/
def slice_audio (audio_path : String) : List String :=
  [audio_path]

/-- The `(path, caption)` entries one audio file contributes to
`processed_files` (`training_service.py`, lines 52-60). -/
def fileEntries (f : String) : List (String × String) :=
  (slice_audio f).map (fun c => (c, generate_caption c))

/-- The per-file loop of `process_dataset` (`training_service.py`,
lines 47-63).  `stop` is the value of `self.should_stop`, which is constant
over the call (nothing inside the call mutates it); a true flag breaks the
loop at its top before the first file is processed. -/
def dataset_loop (stop : Bool) : List String → List (String × String)
  | [] => []
  | f :: rest => if stop then [] else fileEntries f ++ dataset_loop stop rest

/-- The opening statements of `process_dataset` (`training_service.py`,
lines 33-35), executed first in every call: status `processing_dataset`,
progress 0.0, message "Processing dataset...".  Split out because a
background `process_dataset` run is observable in this intermediate state. -/
def process_dataset_begin (s : TSState) : TSState :=
  { s with training_status :=
      { s.training_status with
          status := .processing_dataset
          progress := 0.0
          message := "Processing dataset..." } }

/-- Embedding of `TrainingService.process_dataset` (`training_service.py`, lines 30-74),
with the directory scan result passed in as `audio_files`.  Returns the new
state and the manifest written by `_save_dataset_metadata` (`none` when no
manifest is written).  Note that `should_stop` is read but never written. -/
def process_dataset (s : TSState) (audio_files : List String) :
    TSState × Option (List (String × String)) :=
  let s0 := process_dataset_begin s
  if audio_files = [] then
    ({ s0 with training_status :=
        { s0.training_status with
            status := .failed
            message := "No audio files found in dataset directory" } },
      none)
  else
    let processed := dataset_loop s0.should_stop audio_files
    let n := processed.length
    ({ s0 with training_status :=
        { s0.training_status with
            status := .idle
            progress := 1.0
            message := s!"Dataset processed: {n} chunks" } },
      some processed)

/-- Value read from `self.should_stop` at the check before epoch index `e`
(0-based).  `stopAt = some j` means a `stop_training` call made the flag true
no later than that check for every `e ≥ j`; once set the flag stays set for
the rest of the run.  `stopAt = none` means the flag is never set. -/
def stopRead (stopAt : Option Nat) (e : Nat) : Bool :=
  match stopAt with
  | none => false
  | some j => decide (j ≤ e)

/-- The epoch loop of `start_training` (`training_service.py`, lines
126-143): `for epoch in range(epochs): if should_stop: break; ...`.
`r` is the number of remaining range elements and `e` the next 0-based
epoch index; the body records the 1-based epoch number, the fractional
progress and a message. -/
def epoch_loop (stopAt : Option Nat) (epochs : Nat) :
    Nat → Nat → TrainingStatus → TrainingStatus
  | 0, _, st => st
  | r + 1, e, st =>
    if stopRead stopAt e then st
    else
      let k := e + 1
      epoch_loop stopAt epochs r (e + 1)
        { st with
            epoch := e + 1
            progress := (e + 1 : Rat) / (epochs : Rat)
            message := s!"Training epoch {k}/{epochs}" }

/-- Embedding of `TrainingService.start_training` (`training_service.py`, lines 95-173).
Oracles: `metadata_exists` is whether `dataset/metadata.json` exists,
`load_error` carries the exception message if `MusicGen.get_pretrained`
raises, `stopAt` drives the cooperative stop flag reads, `checkpoint_id`
is the drawn uuid and `timestamp` the formatted `datetime.now()`.
Returns the new state and the checkpoint persisted, if any. -/
def start_training (s : TSState) (epochs : Nat) (metadata_exists : Bool)
    (load_error : Option String) (stopAt : Option Nat)
    (checkpoint_id : Nat) (timestamp : String) :
    TSState × Option ModelCheckpoint :=
  if s.is_training then (s, none)
  else
    let st1 : TrainingStatus :=
      { s.training_status with
          status := .training
          progress := 0.0
          epoch := 0
          total_epochs := epochs
          message := "Starting training..." }
    let s1 : TSState := { s with is_training := true, should_stop := false
                                 training_status := st1 }
    match load_error with
    | some msg =>
      ({ s1 with
          is_training := false
          training_status :=
            { st1 with status := .failed, message := "Training error: " ++ msg } },
        none)
    | none =>
      if metadata_exists = false then
        ({ s1 with
            is_training := false
            training_status :=
              { st1 with
                  status := .failed
                  message := "Dataset not processed. Please process dataset first." } },
          none)
      else
        let st2 := epoch_loop stopAt epochs epochs 0 st1
        let cp : ModelCheckpoint :=
          { id := checkpoint_id
            name := "Fine-tuned Model " ++ timestamp
            description := s!"Trained for {epochs} epochs"
            file_path := "models/checkpoint_" ++ toString checkpoint_id
            is_base := false }
        ({ s1 with
            is_training := false
            training_status :=
              { st2 with
                  status := .completed
                  progress := 1.0
                  message := "Training completed successfully" } },
          some cp)

/-- Embedding of `TrainingService.stop_training` (`training_service.py`, lines 175-178). -/
def stop_training (s : TSState) : TSState :=
  { s with
      should_stop := true
      training_status :=
        { s.training_status with message := "Stopping training..." } }

/-- Embedding of `TrainingService.training_in_progress` (`training_service.py`,
lines 184-186). -/
def training_in_progress (s : TSState) : Bool :=
  s.is_training

/-- Error raised by the `/api/train/start` endpoint guard. -/
inductive ApiError where
  | alreadyInProgress
  deriving DecidableEq, Repr

/-- The `/api/train/start` endpoint (`main.py`, lines 214-229): rejects if
`training_in_progress()`, otherwise schedules `start_training` as a
background task (modelled as running it to completion). -/
def start_training_endpoint (s : TSState) (epochs : Nat)
    (metadata_exists : Bool) (load_error : Option String)
    (stopAt : Option Nat) (checkpoint_id : Nat) (timestamp : String) :
    Except ApiError Unit × TSState × Option ModelCheckpoint :=
  if training_in_progress s then
    (.error .alreadyInProgress, s, none)
  else
    let (s', cp) := start_training s epochs metadata_exists load_error
      stopAt checkpoint_id timestamp
    (.ok (), s', cp)

/-! ### Batch generator (`batch_generator.py`) -/

/-- The per-prompt loop of the `max_concurrent == 1` branch of
`generate_batch` (`batch_generator.py`, lines 44-54): enqueue each prompt
sequentially and collect the task ids. -/
def generate_batch_seq (svc : MGState) (prompts : List String)
    (duration : Rat) (model_id : Option String)
    (guidance_scale temperature : Rat) (now : Nat) : List Nat × MGState :=
  match prompts with
  | [] => ([], svc)
  | p :: rest =>
    let (task, svc') :=
      queue_generation svc p duration model_id guidance_scale temperature none now
    let (ids, svc'') :=
      generate_batch_seq svc' rest duration model_id guidance_scale temperature now
    (task.id :: ids, svc'')

/-- The per-prompt loop of the `max_concurrent != 1` branch of
`generate_batch` (`batch_generator.py`, lines 55-66): textually the same
loop (the concurrent path is not actually implemented). -/
def generate_batch_conc (svc : MGState) (prompts : List String)
    (duration : Rat) (model_id : Option String)
    (guidance_scale temperature : Rat) (now : Nat) : List Nat × MGState :=
  match prompts with
  | [] => ([], svc)
  | p :: rest =>
    let (task, svc') :=
      queue_generation svc p duration model_id guidance_scale temperature none now
    let (ids, svc'') :=
      generate_batch_conc svc' rest duration model_id guidance_scale temperature now
    (task.id :: ids, svc'')

/-- Embedding of `BatchGenerator.generate_batch` (`batch_generator.py`, lines 19-68):
dispatch on `max_concurrent` between the two loops. -/
def generate_batch (svc : MGState) (prompts : List String) (duration : Rat)
    (model_id : Option String) (guidance_scale temperature : Rat)
    (max_concurrent : Int) (now : Nat) : List Nat × MGState :=
  if max_concurrent = 1 then
    generate_batch_seq svc prompts duration model_id guidance_scale temperature now
  else
    generate_batch_conc svc prompts duration model_id guidance_scale temperature now

/-! ### Enqueue sequences (for the FIFO claims) -/

/-- The arguments of one `queue_generation` call. -/
structure GenRequest where
  prompt : String
  duration : Rat
  model_id : Option String
  guidance_scale : Rat
  temperature : Rat
  audio_conditioning : Option String
  now : Nat
  deriving DecidableEq, Repr

/-- Perform one `queue_generation` call for a request, keeping the state. -/
def enqueue_req (s : MGState) (r : GenRequest) : MGState :=
  (queue_generation s r.prompt r.duration r.model_id r.guidance_scale
    r.temperature r.audio_conditioning r.now).2

/-- Perform a sequence of `queue_generation` calls in order. -/
def enqueue_all (s : MGState) (rs : List GenRequest) : MGState :=
  rs.foldl enqueue_req s

/-- The task record `queue_generation` creates for request `r` when the
fresh-id counter is `n`. -/
def mkTask (n : Nat) (r : GenRequest) : GenerationTask :=
  { id := n
    prompt := r.prompt
    status := .queued
    progress := 0
    duration := r.duration
    file_path := none
    model_id := r.model_id
    created_at := r.now
    completed_at := none }

/-- The queue descriptor `queue_generation` appends for request `r` when the
fresh-id counter is `n`. -/
def mkDesc (n : Nat) (r : GenRequest) : JobDescriptor :=
  { task_id := n
    prompt := r.prompt
    duration := r.duration
    model_id := r.model_id
    guidance_scale := r.guidance_scale
    temperature := r.temperature
    audio_conditioning := r.audio_conditioning }

/-- The task records created by a run of enqueue calls starting at counter
value `n`, in order. -/
def tasksFrom : Nat → List GenRequest → List GenerationTask
  | _, [] => []
  | n, r :: rest => mkTask n r :: tasksFrom (n + 1) rest

/-- The queue descriptors appended by a run of enqueue calls starting at
counter value `n`, in order. -/
def descsFrom : Nat → List GenRequest → List JobDescriptor
  | _, [] => []
  | n, r :: rest => mkDesc n r :: descsFrom (n + 1) rest

/-- The task records after the worker has processed the first
`min os.length rs.length` of the tasks `tasksFrom n rs`, one oracle per
iteration. -/
def processedFrom : Nat → List GenRequest → List (Option FailPoint) →
    List GenerationTask
  | n, r :: rs, o :: os =>
    (process_generation (mkTask n r) o).1 :: processedFrom (n + 1) rs os
  | _, _, _ => []

/-- A concrete freshly enqueued task, used to instantiate theorems with
hypotheses. -/
def sampleTask : GenerationTask :=
  (queue_generation mgInit "ambient song" 30 none 3 1 none 0).1

/-! ## Helper lemmas -/

/-- Every worker iteration consumes the head of the queue (empty queue left
unchanged); in particular a processed descriptor is always the oldest one. -/
theorem worker_step_queue (s : MGState) (o : Option FailPoint) :
    (worker_step s o).queue = s.queue.tail := by
  rcases hq : s.queue with _ | ⟨d, rest⟩
  · simp [worker_step, hq]
  · rcases hf : dbFind s.db d.task_id with _ | t <;> simp [worker_step, hq, hf]

/-- Processing never changes a task's id. -/
theorem process_generation_id (t : GenerationTask) (o : Option FailPoint) :
    (process_generation t o).1.id = t.id := by
  rcases o with _ | fp
  · rfl
  · cases fp <;> rfl

/-- Processing never writes the `completed_at` column. -/
theorem process_generation_completed_at (t : GenerationTask)
    (o : Option FailPoint) :
    (process_generation t o).1.completed_at = t.completed_at := by
  rcases o with _ | fp
  · rfl
  · cases fp <;> rfl

/-- The final status of a processed task is `completed` or `failed`. -/
theorem process_generation_status (t : GenerationTask) (o : Option FailPoint) :
    (process_generation t o).1.status = TaskStatus.completed ∨
    (process_generation t o).1.status = TaskStatus.failed := by
  rcases o with _ | fp
  · left; rfl
  · cases fp <;> (right; rfl)

/-- When any of the three fallible calls raises, the `except` branch leaves
the task `failed` with progress 0.0 (all other columns as before). -/
theorem process_generation_fail (t : GenerationTask) (fp : FailPoint) :
    (process_generation t (some fp)).1 =
      { t with status := TaskStatus.failed, progress := 0.0 } := by
  cases fp <;> rfl

/-- Lookup skips a block of records whose ids all differ from the key. -/
theorem dbFind_append_none (l₁ l₂ : List GenerationTask) (i : Nat)
    (h : ∀ t ∈ l₁, t.id ≠ i) :
    dbFind (l₁ ++ l₂) i = dbFind l₂ i := by
  induction l₁ with
  | nil => rfl
  | cons u rest ih =>
    simp only [List.cons_append, dbFind]
    rw [if_neg (h u (by simp))]
    exact ih (fun t ht => h t (by simp [ht]))

/-- Update skips a block of records whose ids all differ from the updated
task's id. -/
theorem dbUpdate_append_none (l₁ l₂ : List GenerationTask)
    (t : GenerationTask) (h : ∀ u ∈ l₁, u.id ≠ t.id) :
    dbUpdate (l₁ ++ l₂) t = l₁ ++ dbUpdate l₂ t := by
  induction l₁ with
  | nil => rfl
  | cons u rest ih =>
    simp only [List.cons_append, dbUpdate]
    rw [if_neg (h u (List.mem_cons_self u rest))]
    show u :: dbUpdate (rest ++ l₂) t = u :: (rest ++ dbUpdate l₂ t)
    rw [ih (fun v hv => h v (List.mem_cons_of_mem u hv))]

/-- A successful lookup returns a record bearing the key. -/
theorem dbFind_some_id (l : List GenerationTask) (i : Nat)
    (t : GenerationTask) (h : dbFind l i = some t) : t.id = i := by
  induction l with
  | nil => cases h
  | cons u rest ih =>
    simp only [dbFind] at h
    by_cases hu : u.id = i
    · rw [if_pos hu] at h
      cases h
      exact hu
    · rw [if_neg hu] at h
      exact ih h

/-- Updating the record a lookup found makes the lookup return the update. -/
theorem dbFind_dbUpdate_self (l : List GenerationTask) (i : Nat)
    (t t' : GenerationTask) (h : dbFind l i = some t) (hid : t'.id = i) :
    dbFind (dbUpdate l t') i = some t' := by
  induction l with
  | nil => cases h
  | cons u rest ih =>
    simp only [dbFind] at h
    by_cases hu : u.id = i
    · simp only [dbUpdate]
      rw [if_pos (by rw [hid]; exact hu), dbFind, if_pos hid]
    · rw [if_neg hu] at h
      simp only [dbUpdate]
      rw [if_neg (fun hc => hu (by rw [hc, hid])), dbFind, if_neg hu]
      exact ih h

/-- A lookup that succeeds on a prefix succeeds on the whole store. -/
theorem dbFind_append_some (l₁ l₂ : List GenerationTask) (i : Nat)
    (t : GenerationTask) (h : dbFind l₁ i = some t) :
    dbFind (l₁ ++ l₂) i = some t := by
  induction l₁ with
  | nil => cases h
  | cons u rest ih =>
    simp only [dbFind] at h
    simp only [List.cons_append, dbFind]
    by_cases hu : u.id = i
    · rw [if_pos hu] at h
      rw [if_pos hu]
      exact h
    · rw [if_neg hu] at h
      rw [if_neg hu]
      exact ih h

/-- A stop flag that reads true at the top of the per-file loop makes
`process_dataset` process no file at all. -/
theorem dataset_loop_stopped (files : List String) :
    dataset_loop true files = [] := by
  cases files <;> rfl

/-- On a non-empty scan with the stop flag already set, `process_dataset`
breaks out of the loop immediately, writes an empty manifest and ends
idle with progress 1.0; the stop flag itself is left set. -/
theorem process_dataset_stopped (s : TSState) (files : List String)
    (hstop : s.should_stop = true) (hne : files ≠ []) :
    process_dataset s files =
      ({ s with training_status :=
          { s.training_status with
              status := .idle
              progress := 1.0
              message := "Dataset processed: 0 chunks" } },
        some []) := by
  have hloop : dataset_loop (process_dataset_begin s).should_stop files = [] := by
    have : (process_dataset_begin s).should_stop = true := hstop
    rw [this]
    exact dataset_loop_stopped files
  simp only [process_dataset, if_neg hne, hloop]
  rfl

/-! ## Claim C1 -/

/-- Claim C1 counterexample: `queue_generation` performs no validation.
Called with an empty prompt and a duration of 200 (outside the configured
bounds [10, 120] of `GenerationConfig`), it does not fail: it persists the
new task (the store now holds exactly that record) and returns it with
status `queued`. -/
theorem C1_no_validation_cex :
    (queue_generation mgInit "" 200 none 3 1 none 0).2.db =
      [(queue_generation mgInit "" 200 none 3 1 none 0).1] ∧
    (queue_generation mgInit "" 200 none 3 1 none 0).1.status =
      TaskStatus.queued ∧
    ("" : String) = "" ∧
    ¬ (generationConfigDefault.min_duration ≤ 200 ∧
        (200 : Rat) ≤ generationConfigDefault.max_duration) := by
  refine ⟨rfl, rfl, rfl, ?_⟩
  intro h
  have h2 := h.2
  norm_num [generationConfigDefault] at h2

/-- Claim C1 (amended): `queue_generation` performs no input validation.
For every call — including an empty prompt or a duration outside the
configured bounds — it creates a `GenerationTask` with status `queued` and
the fresh id, persists it by appending it to the store, appends a job
descriptor carrying the task id and the call's parameters to the tail of the
FIFO queue, and returns the task immediately (no stored record is modified
and no processing happens in the call). -/
theorem C1_enqueue_amended (s : MGState) (prompt : String) (duration : Rat)
    (model_id : Option String) (gs temp : Rat) (ac : Option String)
    (now : Nat) :
    (queue_generation s prompt duration model_id gs temp ac now).1.status =
      TaskStatus.queued ∧
    (queue_generation s prompt duration model_id gs temp ac now).1.prompt =
      prompt ∧
    (queue_generation s prompt duration model_id gs temp ac now).1.id =
      s.next_id ∧
    (queue_generation s prompt duration model_id gs temp ac now).2.db =
      s.db ++ [(queue_generation s prompt duration model_id gs temp ac now).1] ∧
    (queue_generation s prompt duration model_id gs temp ac now).2.queue =
      s.queue ++ [{ task_id := s.next_id, prompt := prompt
                    duration := duration, model_id := model_id
                    guidance_scale := gs, temperature := temp
                    audio_conditioning := ac }] :=
  ⟨rfl, rfl, rfl, rfl, rfl⟩

/-! ## Claim C5 -/

/-- Claim C5: a task whose generation succeeds is committed exactly at the
checkpoints 0.1 (entering processing), 0.3 (after parameters applied),
0.8 (after raw output produced) and 1.0 (after the output is written),
strictly increasing, with status `processing` at the first three and
`completed` at the last; and for every outcome the file path is set iff the
final status is `completed` (for a task enqueued with no file path). -/
theorem C5_progress_checkpoints (t : GenerationTask)
    (ht : t.file_path = none) :
    ((process_generation t none).2.map Snapshot.progress =
      [0.1, 0.3, 0.8, 1.0]) ∧
    ((process_generation t none).2.map Snapshot.status =
      [TaskStatus.processing, TaskStatus.processing, TaskStatus.processing,
        TaskStatus.completed]) ∧
    List.Chain' (· < ·) ((process_generation t none).2.map Snapshot.progress) ∧
    (∀ o : Option FailPoint,
      ((process_generation t o).1.file_path ≠ none ↔
        (process_generation t o).1.status = TaskStatus.completed)) := by
  refine ⟨rfl, rfl, ?_, ?_⟩
  · show List.Chain' (· < ·) [(0.1 : Rat), 0.3, 0.8, 1.0]
    norm_num
  · intro o
    rcases o with _ | fp
    · simp [process_generation]
    · cases fp <;> simp [process_generation, ht]

/-- Witness for C5 at a concrete freshly enqueued task. -/
theorem C5_progress_checkpoints_witness :
    ((process_generation sampleTask none).2.map Snapshot.progress =
      [0.1, 0.3, 0.8, 1.0]) ∧
    ((process_generation sampleTask none).2.map Snapshot.status =
      [TaskStatus.processing, TaskStatus.processing, TaskStatus.processing,
        TaskStatus.completed]) ∧
    List.Chain' (· < ·)
      ((process_generation sampleTask none).2.map Snapshot.progress) ∧
    (∀ o : Option FailPoint,
      ((process_generation sampleTask o).1.file_path ≠ none ↔
        (process_generation sampleTask o).1.status = TaskStatus.completed)) :=
  C5_progress_checkpoints sampleTask rfl

/-! ## Claim C7 -/

/-- Claim C7 counterexample: enqueue one task and let the worker complete it
successfully; the persisted record has status `completed` but its
`completed_at` column is still null — no terminal transition ever sets it. -/
theorem C7_completed_at_cex :
    (dbFind (worker_step (queue_generation mgInit "hello" 30 none 3 1 none 7).2
        none).db 0).map (fun t => (t.status, t.completed_at)) =
      some (TaskStatus.completed, (none : Option Nat)) := by
  rfl

/-- Claim C7 (amended): `created_at` is set at creation (to the call's
now()) and `completed_at` starts null, but the worker never writes
`completed_at`: after any terminal transition (completed or failed) the
field still holds whatever it held before processing — for tasks created by
`queue_generation`, null. -/
theorem C7_timestamps_amended (t : GenerationTask) (o : Option FailPoint)
    (s : MGState) (prompt : String) (d gs temp : Rat)
    (mi ac : Option String) (now : Nat) :
    (process_generation t o).1.completed_at = t.completed_at ∧
    (queue_generation s prompt d mi gs temp ac now).1.created_at = now ∧
    (queue_generation s prompt d mi gs temp ac now).1.completed_at = none := by
  refine ⟨?_, rfl, rfl⟩
  rcases o with _ | fp
  · rfl
  · cases fp <;> rfl

/-! ## Claim C8 -/

/-- Claim C8: `process_dataset` on an empty scan result fails fast — status
`failed`, message "No audio files found in dataset directory", progress
0.0, and no manifest is written. -/
theorem C8_empty_dataset (s : TSState) :
    (process_dataset s []).1.training_status.status = TStatus.failed ∧
    (process_dataset s []).1.training_status.message =
      "No audio files found in dataset directory" ∧
    (process_dataset s []).1.training_status.progress = 0.0 ∧
    (process_dataset s []).2 = none :=
  ⟨rfl, rfl, rfl, rfl⟩

/-! ## Claim C3 -/

/-- Claim C3: when the generation call for the task at the head of the
queue raises (at any of the three fallible calls), the worker marks that
task `failed` with progress reset to 0.0, consumes exactly that descriptor,
and the loop is not stopped: the following iteration still pops the next
queued descriptor whatever its outcome. -/
theorem C3_failure_never_stops_worker (s : MGState) (d : JobDescriptor)
    (rest : List JobDescriptor) (t : GenerationTask) (fp : FailPoint)
    (hq : s.queue = d :: rest) (ht : dbFind s.db d.task_id = some t) :
    dbFind (worker_step s (some fp)).db d.task_id =
      some { t with status := TaskStatus.failed, progress := 0.0 } ∧
    (worker_step s (some fp)).queue = rest ∧
    (∀ o, (worker_step (worker_step s (some fp)) o).queue = rest.tail) := by
  have hdb : (worker_step s (some fp)).db =
      dbUpdate s.db (process_generation t (some fp)).1 := by
    simp [worker_step, hq, ht]
  have hqueue : (worker_step s (some fp)).queue = rest := by
    simp [worker_step, hq, ht]
  refine ⟨?_, hqueue, ?_⟩
  · rw [hdb]
    have hid : ((process_generation t (some fp)).1).id = d.task_id := by
      rw [process_generation_id]
      exact dbFind_some_id s.db d.task_id t ht
    rw [dbFind_dbUpdate_self s.db d.task_id t _ ht hid,
      process_generation_fail]
  · intro o
    rw [worker_step_queue, hqueue]

/-- Witness for C3: two enqueued tasks, the first one's generation raises;
the first task ends failed with progress 0.0 and the second descriptor is
popped by the next iteration. -/
theorem C3_failure_never_stops_worker_witness :
    dbFind (worker_step
        (queue_generation (queue_generation mgInit "a" 30 none 3 1 none 0).2
          "b" 25 none 3 1 none 1).2 (some FailPoint.generate)).db 0 =
      some { id := 0, prompt := "a", status := TaskStatus.failed
             progress := 0.0, duration := 30, file_path := none
             model_id := none, created_at := 0, completed_at := none } ∧
    (worker_step
        (queue_generation (queue_generation mgInit "a" 30 none 3 1 none 0).2
          "b" 25 none 3 1 none 1).2 (some FailPoint.generate)).queue =
      [{ task_id := 1, prompt := "b", duration := 25, model_id := none
         guidance_scale := 3, temperature := 1
         audio_conditioning := none }] ∧
    (∀ o, (worker_step (worker_step
        (queue_generation (queue_generation mgInit "a" 30 none 3 1 none 0).2
          "b" 25 none 3 1 none 1).2 (some FailPoint.generate)) o).queue =
      List.tail [{ task_id := 1, prompt := "b", duration := 25
                   model_id := none, guidance_scale := 3, temperature := 1
                   audio_conditioning := none }]) :=
  C3_failure_never_stops_worker _
    { task_id := 0, prompt := "a", duration := 30, model_id := none
      guidance_scale := 3, temperature := 1, audio_conditioning := none }
    _
    { id := 0, prompt := "a", status := TaskStatus.queued, progress := 0
      duration := 30, file_path := none, model_id := none, created_at := 0
      completed_at := none }
    FailPoint.generate rfl rfl

/-! ## Claim C9 -/

/-- Claim C9: once `stop_training` has set the stop flag and no
`start_training` has reset it, any `process_dataset` call on a non-empty
scan exits its per-file loop before processing the first file (the flag
is never reset by `process_dataset` itself and stays set), yet still
writes a manifest of zero chunks and finishes with status `idle` and
progress 1.0. -/
theorem C9_stale_stop_flag (s : TSState) (files : List String)
    (hstop : s.should_stop = true) (hne : files ≠ []) :
    (process_dataset s files).1.training_status.status = TStatus.idle ∧
    (process_dataset s files).1.training_status.progress = 1.0 ∧
    (process_dataset s files).1.training_status.message =
      "Dataset processed: 0 chunks" ∧
    (process_dataset s files).1.should_stop = true ∧
    (process_dataset s files).2 = some [] := by
  rw [process_dataset_stopped s files hstop hne]
  exact ⟨rfl, rfl, rfl, hstop, rfl⟩

/-- Witness for C9: stop requested on the idle service, then a dataset
processing run over one file. -/
theorem C9_stale_stop_flag_witness :
    (process_dataset (stop_training tsInit) ["a.wav"]).1.training_status.status
      = TStatus.idle ∧
    (process_dataset (stop_training tsInit)
      ["a.wav"]).1.training_status.progress = 1.0 ∧
    (process_dataset (stop_training tsInit) ["a.wav"]).1.training_status.message
      = "Dataset processed: 0 chunks" ∧
    (process_dataset (stop_training tsInit) ["a.wav"]).1.should_stop = true ∧
    (process_dataset (stop_training tsInit) ["a.wav"]).2 = some [] :=
  C9_stale_stop_flag (stop_training tsInit) ["a.wav"] rfl (by decide)

/-! ## Claim C10 -/

/-- The `max_concurrent != 1` branch of `generate_batch` computes exactly
what the `max_concurrent == 1` branch computes. -/
theorem generate_batch_conc_eq_seq (prompts : List String) :
    ∀ svc : MGState, ∀ (d : Rat) (m : Option String) (g tp : Rat) (now : Nat),
      generate_batch_conc svc prompts d m g tp now =
        generate_batch_seq svc prompts d m g tp now := by
  induction prompts with
  | nil => intro svc d m g tp now; rfl
  | cons p rest ih =>
    intro svc d m g tp now
    have h1 : generate_batch_conc svc (p :: rest) d m g tp now =
        ((queue_generation svc p d m g tp none now).1.id ::
          (generate_batch_conc (queue_generation svc p d m g tp none now).2
            rest d m g tp now).1,
         (generate_batch_conc (queue_generation svc p d m g tp none now).2
            rest d m g tp now).2) := rfl
    have h2 : generate_batch_seq svc (p :: rest) d m g tp now =
        ((queue_generation svc p d m g tp none now).1.id ::
          (generate_batch_seq (queue_generation svc p d m g tp none now).2
            rest d m g tp now).1,
         (generate_batch_seq (queue_generation svc p d m g tp none now).2
            rest d m g tp now).2) := rfl
    rw [h1, h2, ih]

/-- The sequential loop returns one id per prompt, in input order: the ids
are the consecutive fresh ids starting at the current counter. -/
theorem generate_batch_seq_ids (prompts : List String) :
    ∀ svc : MGState, ∀ (d : Rat) (m : Option String) (g tp : Rat) (now : Nat),
      (generate_batch_seq svc prompts d m g tp now).1 =
        (List.range prompts.length).map (fun i => svc.next_id + i) := by
  induction prompts with
  | nil => intro svc d m g tp now; rfl
  | cons p rest ih =>
    intro svc d m g tp now
    have h2 : generate_batch_seq svc (p :: rest) d m g tp now =
        ((queue_generation svc p d m g tp none now).1.id ::
          (generate_batch_seq (queue_generation svc p d m g tp none now).2
            rest d m g tp now).1,
         (generate_batch_seq (queue_generation svc p d m g tp none now).2
            rest d m g tp now).2) := rfl
    rw [h2]
    show (queue_generation svc p d m g tp none now).1.id ::
        (generate_batch_seq (queue_generation svc p d m g tp none now).2
          rest d m g tp now).1 = _
    rw [ih]
    have hid : (queue_generation svc p d m g tp none now).1.id =
      svc.next_id := rfl
    have hnext : (queue_generation svc p d m g tp none now).2.next_id =
      svc.next_id + 1 := rfl
    rw [hid, hnext]
    simp only [List.length_cons, List.range_succ_eq_map, List.map_cons,
      List.map_map, List.cons.injEq]
    refine ⟨by omega, ?_⟩
    refine List.map_congr_left ?_
    intro a _
    simp only [Function.comp_apply]
    omega

/-- Claim C10: the two branches of `generate_batch` are extensionally
equal — for every `max_concurrent` value the call runs the same sequential
per-prompt loop — and the returned list has exactly one task id per prompt,
in input-prompt order (the consecutive fresh ids starting at the service's
current counter). -/
theorem C10_generate_batch_branches (svc : MGState) (prompts : List String)
    (d : Rat) (m : Option String) (g tp : Rat) (mc : Int) (now : Nat) :
    generate_batch svc prompts d m g tp mc now =
      generate_batch_seq svc prompts d m g tp now ∧
    (generate_batch svc prompts d m g tp mc now).1 =
      (List.range prompts.length).map (fun i => svc.next_id + i) := by
  have hbr : generate_batch svc prompts d m g tp mc now =
      generate_batch_seq svc prompts d m g tp now := by
    unfold generate_batch
    split
    · rfl
    · exact generate_batch_conc_eq_seq prompts svc d m g tp now
  refine ⟨hbr, ?_⟩
  rw [hbr]
  exact generate_batch_seq_ids prompts svc d m g tp now

/-! ## Claim C4 -/

/-- Claim C4 counterexample: a dataset-processing run is active (the status
record reads `processing_dataset`), but `process_dataset` never sets the
`is_training` flag, so a concurrent `StartTraining` is not rejected with
`AlreadyInProgress`: the endpoint accepts it (returns ok) and the run
overwrites the status record (it ends `completed`, no longer
`processing_dataset`). -/
theorem C4_start_during_dataset_cex :
    (process_dataset_begin tsInit).training_status.status =
      TStatus.processing_dataset ∧
    (start_training_endpoint (process_dataset_begin tsInit) 3 true none none
      0 "2026-10-12 00:00").1 = Except.ok () ∧
    (start_training_endpoint (process_dataset_begin tsInit) 3 true none none
      0 "2026-10-12 00:00").2.1.training_status.status = TStatus.completed :=
  ⟨rfl, rfl, rfl⟩

/-- Claim C4 (amended): the in-progress guard is the `is_training` flag,
which is set only by a training run, not by dataset processing.  While the
flag is set, the endpoint rejects `StartTraining` with `AlreadyInProgress`
and the state is untouched, and the service-level call itself returns
without changing any field and persists nothing; but a run that is only in
`ProcessingDataset` does not set the flag and is not protected. -/
theorem C4_already_in_progress_amended (s : TSState) (epochs : Nat)
    (me : Bool) (le : Option String) (sa : Option Nat) (cid : Nat)
    (ts : String) (h : s.is_training = true) :
    (start_training_endpoint s epochs me le sa cid ts).1 =
      Except.error ApiError.alreadyInProgress ∧
    (start_training_endpoint s epochs me le sa cid ts).2.1 = s ∧
    (start_training s epochs me le sa cid ts).1 = s ∧
    (start_training s epochs me le sa cid ts).2 = none := by
  refine ⟨?_, ?_, ?_, ?_⟩ <;>
    simp [start_training_endpoint, start_training, training_in_progress, h]

/-- Witness for the amended C4 at a state whose in-progress flag is set. -/
theorem C4_already_in_progress_witness :
    (start_training_endpoint { tsInit with is_training := true } 2 true none
      none 0 "t").1 = Except.error ApiError.alreadyInProgress ∧
    (start_training_endpoint { tsInit with is_training := true } 2 true none
      none 0 "t").2.1 = { tsInit with is_training := true } ∧
    (start_training { tsInit with is_training := true } 2 true none none 0
      "t").1 = { tsInit with is_training := true } ∧
    (start_training { tsInit with is_training := true } 2 true none none 0
      "t").2 = none :=
  C4_already_in_progress_amended { tsInit with is_training := true } 2 true
    none none 0 "t" rfl

/-! ## Claim C6 -/

/-- Final value of the `epoch` counter after the epoch loop with the stop
flag turning true at checkpoint `j`: exactly the fully completed epochs,
`min j epochs` when started at 0 — the loop never exits mid-epoch. -/
theorem epoch_loop_epoch_count (j epochs : Nat) :
    ∀ (r e : Nat) (st : TrainingStatus), st.epoch = e →
      (epoch_loop (some j) epochs r e st).epoch = max e (min j (e + r)) := by
  intro r
  induction r with
  | zero =>
    intro e st h
    simp only [epoch_loop]
    omega
  | succ r ih =>
    intro e st h
    simp only [epoch_loop, stopRead]
    by_cases hj : j ≤ e
    · rw [if_pos (by simpa using hj)]
      omega
    · rw [if_neg (by simpa using hj)]
      rw [ih (e + 1) _ rfl]
      omega

/-- Claim C6: in a run that got started (flag clear, manifest present,
model load ok), a `Stop()` observed at loop checkpoint `j` terminates the
run at that checkpoint — `epoch` ends at `min j epochs`, i.e. only whole
epochs ran — and the run is treated as success: status `completed`,
progress 1.0, the in-progress flag cleared, and a `ModelCheckpoint`
persisted with the drawn id and the timestamped name. -/
theorem C6_stop_treated_as_success (s : TSState) (epochs j cid : Nat)
    (ts : String) (hnt : s.is_training = false) :
    (start_training s epochs true none (some j) cid
      ts).1.training_status.status = TStatus.completed ∧
    (start_training s epochs true none (some j) cid
      ts).1.training_status.progress = 1.0 ∧
    (start_training s epochs true none (some j) cid
      ts).1.training_status.epoch = min j epochs ∧
    (start_training s epochs true none (some j) cid ts).1.is_training =
      false ∧
    (start_training s epochs true none (some j) cid ts).2 =
      some { id := cid, name := "Fine-tuned Model " ++ ts
             description := s!"Trained for {epochs} epochs"
             file_path := "models/checkpoint_" ++ toString cid
             is_base := false } := by
  have hepoch :
      (start_training s epochs true none (some j) cid
        ts).1.training_status.epoch = min j epochs := by
    simp only [start_training, hnt, Bool.false_eq_true, if_false]
    have := epoch_loop_epoch_count j epochs epochs 0
      { s.training_status with
          status := .training, progress := 0.0, epoch := 0
          total_epochs := epochs, message := "Starting training..." } rfl
    simpa using this
  refine ⟨?_, ?_, hepoch, ?_, ?_⟩ <;>
    simp [start_training, hnt]

/-! ## Claim C2 machinery -/

/-- A worker iteration on a non-empty queue whose head task is found:
the descriptor is consumed, the processed record replaces the stored one,
and the `is_processing` flag ends false. -/
theorem worker_step_found (s : MGState) (d : JobDescriptor)
    (rest : List JobDescriptor) (t : GenerationTask) (o : Option FailPoint)
    (hq : s.queue = d :: rest) (ht : dbFind s.db d.task_id = some t) :
    worker_step s o =
      { s with queue := rest
               db := dbUpdate s.db (process_generation t o).1
               is_processing := false } := by
  simp [worker_step, hq, ht]

/-- A run of enqueue calls appends the corresponding task records to the
store and the corresponding descriptors to the queue, in call order, and
advances the fresh-id counter by the number of calls. -/
theorem enqueue_all_spec (rs : List GenRequest) :
    ∀ s : MGState,
      enqueue_all s rs =
        { db := s.db ++ tasksFrom s.next_id rs
          queue := s.queue ++ descsFrom s.next_id rs
          next_id := s.next_id + rs.length
          is_processing := s.is_processing } := by
  induction rs with
  | nil =>
    intro s
    simp [enqueue_all, tasksFrom, descsFrom]
  | cons r rest ih =>
    intro s
    have hstep : enqueue_all s (r :: rest) =
        enqueue_all (enqueue_req s r) rest := rfl
    rw [hstep, ih]
    have h1 : (enqueue_req s r).db = s.db ++ [mkTask s.next_id r] := rfl
    have h2 : (enqueue_req s r).queue = s.queue ++ [mkDesc s.next_id r] := rfl
    have h3 : (enqueue_req s r).next_id = s.next_id + 1 := rfl
    have h4 : (enqueue_req s r).is_processing = s.is_processing := rfl
    rw [h1, h2, h3, h4]
    simp only [tasksFrom, descsFrom, MGState.mk.injEq, List.append_assoc,
      List.singleton_append, List.length_cons, true_and, and_true]
    omega

/-- Lemma: `processedFrom` over an empty request list is empty. -/
theorem processedFrom_nil_reqs (n : Nat) (os : List (Option FailPoint)) :
    processedFrom n [] os = [] := by
  cases os <;> rfl

/-- Lemma: `processedFrom` over an empty oracle list is empty. -/
theorem processedFrom_nil_oracles (n : Nat) (rs : List GenRequest) :
    processedFrom n rs [] = [] := by
  cases rs <;> rfl

/-- After `k` worker iterations on a store of freshly enqueued tasks (plus
an already-processed block with smaller ids), the first `min k N` tasks are
replaced by their processed records, in order, and the queue holds exactly
the descriptors of the remaining tasks. -/
theorem run_worker_spec (os : List (Option FailPoint)) :
    ∀ (rs : List GenRequest) (n : Nat) (done : List GenerationTask)
      (m : Nat) (b : Bool), (∀ t ∈ done, t.id < n) →
      (run_worker
        { db := done ++ tasksFrom n rs, queue := descsFrom n rs
          next_id := m, is_processing := b } os).db =
        done ++ processedFrom n rs os ++
          tasksFrom (n + min os.length rs.length) (rs.drop os.length) ∧
      (run_worker
        { db := done ++ tasksFrom n rs, queue := descsFrom n rs
          next_id := m, is_processing := b } os).queue =
        descsFrom (n + min os.length rs.length) (rs.drop os.length) := by
  induction os with
  | nil =>
    intro rs n done m b h
    refine ⟨?_, ?_⟩
    · show done ++ tasksFrom n rs = _
      simp [processedFrom_nil_oracles]
    · show descsFrom n rs = _
      simp
  | cons o os ih =>
    intro rs n done m b h
    rcases rs with _ | ⟨r, rs'⟩
    · have hrw :
          run_worker
            { db := done ++ tasksFrom n ([] : List GenRequest)
              queue := descsFrom n ([] : List GenRequest)
              next_id := m, is_processing := b } (o :: os) =
          run_worker
            { db := done ++ tasksFrom n ([] : List GenRequest)
              queue := descsFrom n ([] : List GenRequest)
              next_id := m, is_processing := b } os := rfl
      obtain ⟨hdb, hq⟩ := ih [] n done m b h
      rw [hrw]
      refine ⟨?_, ?_⟩
      · rw [hdb]
        simp [processedFrom_nil_reqs, tasksFrom]
      · rw [hq]
        simp [descsFrom]
    · have hne : ∀ u ∈ done, u.id ≠ n := fun u hu => Nat.ne_of_lt (h u hu)
      have hfind : dbFind (done ++ tasksFrom n (r :: rs')) n =
          some (mkTask n r) := by
        rw [dbFind_append_none _ _ _ hne]
        show (if (mkTask n r).id = n then some (mkTask n r)
          else dbFind (tasksFrom (n + 1) rs') n) = some (mkTask n r)
        rw [if_pos (show (mkTask n r).id = n from rfl)]
      have hid : ((process_generation (mkTask n r) o).1).id = n := by
        rw [process_generation_id]
        rfl
      have hupd : dbUpdate (done ++ tasksFrom n (r :: rs'))
            (process_generation (mkTask n r) o).1 =
          (done ++ [(process_generation (mkTask n r) o).1]) ++
            tasksFrom (n + 1) rs' := by
        rw [dbUpdate_append_none _ _ _
          (fun u hu => by rw [hid]; exact hne u hu)]
        show done ++ (if (mkTask n r).id =
            ((process_generation (mkTask n r) o).1).id
          then (process_generation (mkTask n r) o).1 :: tasksFrom (n + 1) rs'
          else mkTask n r ::
            dbUpdate (tasksFrom (n + 1) rs')
              (process_generation (mkTask n r) o).1) = _
        rw [if_pos (by rw [hid]; rfl)]
        rw [List.append_cons]
      have hstep : worker_step
          { db := done ++ tasksFrom n (r :: rs')
            queue := descsFrom n (r :: rs'), next_id := m
            is_processing := b } o =
          { db := (done ++ [(process_generation (mkTask n r) o).1]) ++
              tasksFrom (n + 1) rs'
            queue := descsFrom (n + 1) rs', next_id := m
            is_processing := false } := by
        rw [worker_step_found _ (mkDesc n r) (descsFrom (n + 1) rs')
          (mkTask n r) o rfl hfind]
        rw [show (MGState.mk (done ++ tasksFrom n (r :: rs'))
            (descsFrom n (r :: rs')) m b).db = done ++ tasksFrom n (r :: rs')
          from rfl]
        rw [hupd]
      have hdone' : ∀ u ∈ done ++ [(process_generation (mkTask n r) o).1],
          u.id < n + 1 := by
        intro u hu
        rcases List.mem_append.1 hu with hu | hu
        · exact Nat.lt_succ_of_lt (h u hu)
        · rcases List.mem_singleton.1 hu with rfl
          rw [hid]
          exact Nat.lt_succ_self n
      obtain ⟨hdb2, hq2⟩ :=
        ih rs' (n + 1) (done ++ [(process_generation (mkTask n r) o).1]) m
          false hdone'
      have hrun : run_worker
          { db := done ++ tasksFrom n (r :: rs')
            queue := descsFrom n (r :: rs'), next_id := m
            is_processing := b } (o :: os) =
          run_worker
            { db := (done ++ [(process_generation (mkTask n r) o).1]) ++
                tasksFrom (n + 1) rs'
              queue := descsFrom (n + 1) rs', next_id := m
              is_processing := false } os := by
        show run_worker (worker_step
          { db := done ++ tasksFrom n (r :: rs')
            queue := descsFrom n (r :: rs'), next_id := m
            is_processing := b } o) os = _
        rw [hstep]
      have hpf : processedFrom n (r :: rs') (o :: os) =
          (process_generation (mkTask n r) o).1 ::
            processedFrom (n + 1) rs' os := rfl
      have hmin : n + 1 + min os.length rs'.length =
          n + min (o :: os).length (r :: rs').length := by
        simp only [List.length_cons]
        omega
      have hdrop : (r :: rs').drop (o :: os).length = rs'.drop os.length :=
        rfl
      refine ⟨?_, ?_⟩
      · rw [hrun, hdb2, hpf, ← hdrop, hmin]
        simp [List.append_assoc]
      · rw [hrun, hq2, ← hdrop, hmin]

/-- Every record in a processed block has an id below the block's end. -/
theorem processedFrom_ids (os : List (Option FailPoint)) :
    ∀ (rs : List GenRequest) (n : Nat) (t : GenerationTask),
      t ∈ processedFrom n rs os → t.id < n + min os.length rs.length := by
  induction os with
  | nil =>
    intro rs n t ht
    rw [processedFrom_nil_oracles] at ht
    cases ht
  | cons o os ih =>
    intro rs n t ht
    rcases rs with _ | ⟨r, rs'⟩
    · rw [processedFrom_nil_reqs] at ht
      cases ht
    · rcases List.mem_cons.1 ht with h | h
      · subst h
        have : ((process_generation (mkTask n r) o).1).id = n := by
          rw [process_generation_id]
          rfl
        simp only [List.length_cons]
        omega
      · have := ih rs' (n + 1) t h
        simp only [List.length_cons]
        omega

/-- Looking up the `i`-th processed record (by offset into the block)
returns a record that is no longer queued. -/
theorem processedFrom_find (os : List (Option FailPoint)) :
    ∀ (rs : List GenRequest) (n i : Nat), i < min os.length rs.length →
      ∃ t, dbFind (processedFrom n rs os) (n + i) = some t ∧
        t.status ≠ TaskStatus.queued := by
  induction os with
  | nil =>
    intro rs n i h
    simp at h
  | cons o os ih =>
    intro rs n i h
    rcases rs with _ | ⟨r, rs'⟩
    · simp at h
    · rcases Nat.eq_zero_or_pos i with hi | hi
      · subst hi
        refine ⟨(process_generation (mkTask n r) o).1, ?_, ?_⟩
        · show (if ((process_generation (mkTask n r) o).1).id = n + 0
            then some (process_generation (mkTask n r) o).1
            else dbFind (processedFrom (n + 1) rs' os) (n + 0)) = _
          rw [if_pos (by rw [process_generation_id]; rfl)]
        · rcases process_generation_status (mkTask n r) o with h | h <;>
            simp [h]
      · simp only [List.length_cons] at h
        obtain ⟨t, hfind, hst⟩ := ih rs' (n + 1) (i - 1) (by omega)
        refine ⟨t, ?_, hst⟩
        show (if ((process_generation (mkTask n r) o).1).id = n + i
          then some (process_generation (mkTask n r) o).1
          else dbFind (processedFrom (n + 1) rs' os) (n + i)) = some t
        rw [if_neg (by rw [process_generation_id]; show ¬ n = n + i; omega)]
        rw [show n + i = n + 1 + (i - 1) by omega]
        exact hfind

/-- Looking up a still-unprocessed task returns a queued record. -/
theorem tasksFrom_find (rs : List GenRequest) :
    ∀ (n i : Nat), n ≤ i → i < n + rs.length →
      ∃ t, dbFind (tasksFrom n rs) i = some t ∧
        t.status = TaskStatus.queued := by
  induction rs with
  | nil =>
    intro n i h1 h2
    simp only [List.length_nil] at h2
    omega
  | cons r rs' ih =>
    intro n i h1 h2
    by_cases hi : i = n
    · refine ⟨mkTask n r, ?_, rfl⟩
      show (if (mkTask n r).id = i then some (mkTask n r)
        else dbFind (tasksFrom (n + 1) rs') i) = some (mkTask n r)
      rw [if_pos (by rw [hi]; rfl)]
    · simp only [List.length_cons] at h2
      obtain ⟨t, hf, hs⟩ := ih (n + 1) i (by omega) (by omega)
      refine ⟨t, ?_, hs⟩
      show (if (mkTask n r).id = i then some (mkTask n r)
        else dbFind (tasksFrom (n + 1) rs') i) = some t
      rw [if_neg (by show ¬ n = i; omega)]
      exact hf

/-- Claim C2: every worker iteration pops the oldest descriptor, and after
a sequence of enqueue calls followed by any `k ≤ N` worker iterations,
exactly the first `k` tasks (in enqueue order) have transitioned out of
`queued`: tasks leave `queued` in exactly FIFO order. -/
theorem C2_fifo_order (rs : List GenRequest) (os : List (Option FailPoint))
    (hk : os.length ≤ rs.length) :
    (∀ (s : MGState) (o : Option FailPoint),
      (worker_step s o).queue = s.queue.tail) ∧
    (∀ i, i < rs.length →
      ∃ t, dbFind (run_worker (enqueue_all mgInit rs) os).db i = some t ∧
        (t.status = TaskStatus.queued ↔ os.length ≤ i)) := by
  refine ⟨worker_step_queue, ?_⟩
  intro i hi
  have henq : enqueue_all mgInit rs =
      { db := [] ++ tasksFrom 0 rs, queue := [] ++ descsFrom 0 rs
        next_id := 0 + rs.length, is_processing := false } := by
    rw [enqueue_all_spec]
    rfl
  rw [henq]
  obtain ⟨hdb, -⟩ :=
    run_worker_spec os rs 0 [] (0 + rs.length) false (by intro t ht; cases ht)
  simp only [List.nil_append] at hdb ⊢
  rw [hdb]
  have hmin : min os.length rs.length = os.length := Nat.min_eq_left hk
  by_cases hik : i < os.length
  · obtain ⟨t, hf, hst⟩ :=
      processedFrom_find os rs 0 i (by rw [hmin]; exact hik)
    refine ⟨t, ?_, iff_of_false hst (by omega)⟩
    rw [show i = 0 + i from (Nat.zero_add i).symm]
    exact dbFind_append_some _ _ _ _ hf
  · have hik' : os.length ≤ i := by omega
    rw [dbFind_append_none _ _ _ (fun t ht => by
      have := processedFrom_ids os rs 0 t ht
      rw [hmin] at this
      omega)]
    obtain ⟨t, hf, hs⟩ := tasksFrom_find (rs.drop os.length)
      (0 + min os.length rs.length) i
      (by rw [hmin]; omega)
      (by rw [hmin, List.length_drop]; omega)
    exact ⟨t, hf, iff_of_true hs (by omega)⟩

/-- Witness for C2: two enqueued requests, one worker iteration; the first
task is out of `queued`, the second still `queued`. -/
theorem C2_fifo_order_witness :
    (∀ (s : MGState) (o : Option FailPoint),
      (worker_step s o).queue = s.queue.tail) ∧
    (∀ i, i <
        ([{ prompt := "a", duration := 30, model_id := none
            guidance_scale := 3, temperature := 1
            audio_conditioning := none, now := 0 },
          { prompt := "b", duration := 25, model_id := none
            guidance_scale := 3, temperature := 1
            audio_conditioning := none, now := 1 }] :
          List GenRequest).length →
      ∃ t, dbFind (run_worker (enqueue_all mgInit
          [{ prompt := "a", duration := 30, model_id := none
             guidance_scale := 3, temperature := 1
             audio_conditioning := none, now := 0 },
           { prompt := "b", duration := 25, model_id := none
             guidance_scale := 3, temperature := 1
             audio_conditioning := none, now := 1 }]) [none]).db i =
        some t ∧
        (t.status = TaskStatus.queued ↔
          ([none] : List (Option FailPoint)).length ≤ i)) :=
  C2_fifo_order
    [{ prompt := "a", duration := 30, model_id := none
       guidance_scale := 3, temperature := 1
       audio_conditioning := none, now := 0 },
     { prompt := "b", duration := 25, model_id := none
       guidance_scale := 3, temperature := 1
       audio_conditioning := none, now := 1 }]
    [none] (by decide)

/-- Witness for C6: fresh service, 5 epochs requested, stop observed at
checkpoint 2. -/
theorem C6_stop_treated_as_success_witness :
    (start_training tsInit 5 true none (some 2) 9
      "2026-02-03 04:05").1.training_status.status = TStatus.completed ∧
    (start_training tsInit 5 true none (some 2) 9
      "2026-02-03 04:05").1.training_status.progress = 1.0 ∧
    (start_training tsInit 5 true none (some 2) 9
      "2026-02-03 04:05").1.training_status.epoch = min 2 5 ∧
    (start_training tsInit 5 true none (some 2) 9
      "2026-02-03 04:05").1.is_training = false ∧
    (start_training tsInit 5 true none (some 2) 9 "2026-02-03 04:05").2 =
      some { id := 9, name := "Fine-tuned Model " ++ "2026-02-03 04:05"
             description := s!"Trained for {5} epochs"
             file_path := "models/checkpoint_" ++ toString 9
             is_base := false } :=
  C6_stop_treated_as_success tsInit 5 2 9 "2026-02-03 04:05" rfl

end NodeComposer
